import Mathlib

/-!
Verification of the audi_connect_ha vehicle-cloud client against its
natural-language specification.  The Python sources under
`custom_components/audiconnect/` are shallowly embedded: pure helpers become
Lean functions, stateful methods become explicit state-passing functions, and
network traffic is threaded through the functions as explicit outcome values
(`FetchOutcome`, response oracles, etc.).  Exceptions are modelled as explicit
result constructors.  Datetimes are modelled as integer timestamps with
`datetime(1970,1,1)` as 0; floating-point post-processing of telemetry values
is kept symbolic via dedicated `SVal` constructors, since no claim depends on
the numeric value of a float.
-/

namespace AudiConnect

/-! ## JSON values and `util.get_attr`

Python JSON payloads (`json.loads` output) are modelled by `JVal`.  Python's
`None` and JSON `null` are the same object in the source, so both are `.null`.
A JSON object is encoded first-order as a chain `objCons key val rest` ending
in `objNil` (insertion order preserved, keys unique, exactly like a Python
dict); `JVal.mkObj` builds such a chain from an association list. -/

inductive JVal where
  | null
  | str (s : String)
  | num (n : Int)
  | boolean (b : Bool)
  | objNil
  | objCons (key : String) (val : JVal) (rest : JVal)
  deriving Repr, DecidableEq

/-- Build a JSON object from an association list. -/
def JVal.mkObj (fields : List (String × JVal)) : JVal :=
  fields.foldr (fun p acc => JVal.objCons p.1 p.2 acc) JVal.objNil

/-- `d.get(key, None)`: the first binding of `key` when `d` is a dict,
`None` otherwise (also the `default` branch of `util.get_attr` for
non-dict intermediate values). -/
def jGet : JVal → String → JVal
  | JVal.objCons k v rest, key => if k == key then v else jGet rest key
  | _, _ => JVal.null

/-- `keys.split(".")`: split a character list at every dot; `acc` is the
current segment reversed. -/
def splitDotAux : List Char → List Char → List String
  | [], acc => [String.mk acc.reverse]
  | c :: rest, acc =>
    if c = '.' then String.mk acc.reverse :: splitDotAux rest []
    else splitDotAux rest (c :: acc)

/-- Python `keys.split(".")`. -/
def splitDot (s : String) : List String := splitDotAux s.data []

/-- `util.get_attr(dictionary, keys)`: reduce over `keys.split(".")`, doing
`d.get(key, None)` when `d` is a dict and yielding `None` otherwise. -/
def get_attr (dictionary : JVal) (keys : String) : JVal :=
  (splitDot keys).foldl jGet dictionary

/-- `d[key]` (Python subscript): `some` value when the key is present in a
dict, `none` when the key is missing or `d` is not a dict (KeyError /
TypeError in the source). -/
def jIndex : JVal → String → Option JVal
  | JVal.objCons k v rest, key => if k == key then some v else jIndex rest key
  | _, _ => none

/-- `key in d` (Python containment on a dict). -/
def jHasKey : JVal → String → Bool
  | JVal.objCons k _ rest, key => k == key || jHasKey rest key
  | _, _ => false

/-- Python truthiness of a JSON value (`if result:`). -/
def jTruthy : JVal → Bool
  | JVal.null => false
  | JVal.str s => s != ""
  | JVal.num n => n != 0
  | JVal.boolean b => b
  | JVal.objNil => false
  | JVal.objCons _ _ _ => true

/-- `d[k] = v` on a JSON dict: replace in place or append (Python dict
assignment keeps insertion order).  Only ever applied to dicts in the
source. -/
def jSetKey : JVal → String → JVal → JVal
  | JVal.objCons k v rest, key, nv =>
    if k == key then JVal.objCons key nv rest else JVal.objCons k v (jSetKey rest key nv)
  | JVal.objNil, key, nv => JVal.objCons key nv JVal.objNil
  | j, _, _ => j

/-- Replace-or-append update of an association list, mirroring Python
`d[k] = v` on the model's plain association-list dictionaries. -/
def setAssoc {α : Type} : List (String × α) → String → α → List (String × α)
  | [], k, v => [(k, v)]
  | (k', v') :: rest, k, v =>
    if k' == k then (k, v) :: rest else (k', v') :: setAssoc rest k v

/-! ## `AudiConnectVehicle.call_update` (claim C3)

The wrapped fetcher is modelled as a map from the invocation index to the
outcome of that invocation.  `asyncio.sleep(2)` calls are collected as the
list of slept durations (in seconds). -/

/-- Outcome of one invocation of the wrapped fetcher `func`. -/
inductive AttemptOutcome where
  | ok
  | timeout
  | failure (msg : String)
  deriving Repr, DecidableEq

/-- How `call_update` terminates. -/
inductive CallResult where
  | returned
  | timeoutRaised
  | exceptionRaised (msg : String)
  deriving Repr, DecidableEq

/-- `AudiConnectVehicle.call_update(func, ntries)` starting at invocation
index `i`: returns the termination kind, the number of invocations of `func`,
and the list of sleep durations (the source sleeps 2 seconds before every
retry).  The source retries only on `TimeoutError` and only while
`ntries > 1`. -/
def call_update (func : Nat → AttemptOutcome) : Nat → Nat → CallResult × Nat × List Nat
  | ntries, i =>
    match func i with
    | AttemptOutcome.ok => (CallResult.returned, 1, [])
    | AttemptOutcome.failure m => (CallResult.exceptionRaised m, 1, [])
    | AttemptOutcome.timeout =>
      match ntries with
      | n + 2 =>
        let r := call_update func (n + 1) (i + 1)
        (r.1, r.2.1 + 1, 2 :: r.2.2)
      | _ => (CallResult.timeoutRaised, 1, [])

/-! ## `AudiService.check_request_succeeded` (claim C4)

The status polls are modelled as a map from the poll index to the JSON
response of that poll.  Each loop iteration sleeps `REQUEST_STATUS_SLEEP`
seconds and then polls once, so the number of sleeps equals the number of
polls; the poll count is carried in the result. -/

def MAX_RESPONSE_ATTEMPTS : Nat := 10
def REQUEST_STATUS_SLEEP : Nat := 10

def SUCCEEDED : String := "succeeded"
def FAILED : String := "failed"
def REQUEST_SUCCESSFUL : String := "request_successful"
def REQUEST_FAILED : String := "request_failed"

/-- How `check_request_succeeded` terminates: normal return, the explicit
failure `Exception` (raised when the extracted status is `None` or equals
`failedCode`), or the timeout `Exception` after all attempts.  Each carries
the number of polls performed. -/
inductive PollResult where
  | success (pollsUsed : Nat)
  | failedError (status : JVal) (pollsUsed : Nat)
  | timedOutError (pollsUsed : Nat)
  deriving Repr, DecidableEq

/-- One loop of `AudiService.check_request_succeeded`, with `fuel` remaining
iterations and `used` polls already performed.  The status is extracted from
the response with `get_attr(res, path)`; `status is None` is `.null` here.
All call sites pass a non-`None` `failedCode`, so the source's
`failedCode is not None` conjunct is always true. -/
def check_request_loop (polls : Nat → JVal) (successCode failedCode path : String) :
    Nat → Nat → PollResult
  | 0, used => PollResult.timedOutError used
  | fuel + 1, used =>
    let status := get_attr (polls used) path
    if status = JVal.null ∨ status = JVal.str failedCode then
      PollResult.failedError status (used + 1)
    else if status = JVal.str successCode then
      PollResult.success (used + 1)
    else
      check_request_loop polls successCode failedCode path fuel (used + 1)

/-- `AudiService.check_request_succeeded(url, action, successCode, failedCode,
path)` with the polled responses supplied by `polls`. -/
def check_request_succeeded (polls : Nat → JVal) (successCode failedCode path : String) :
    PollResult :=
  check_request_loop polls successCode failedCode path MAX_RESPONSE_ATTEMPTS 0

def PollResult.pollsUsed : PollResult → Nat
  | PollResult.success n => n
  | PollResult.failedError _ n => n
  | PollResult.timedOutError n => n

/-! ## The vehicle and its subsystem fetchers (claims C1, C2)

`AudiConnectVehicle` holds two telemetry dictionaries (`self._vehicle.fields`
and `self._vehicle.state`), the per-session error-deduplication set
`self._logged_errors`, the per-cycle `self._no_error` boolean and the six
subsystem support flags.  Telemetry values are modelled by `SVal`: raw JSON
values are stored as `.j`; values the source post-processes with
`util.parse_datetime`, `float(...)` or the outdoor-temperature formula
`round(float(tmp) / 10 - 273, 1)` are stored under symbolic constructors
carrying the raw input, since the claims never depend on the processed
number. -/

/-- A value stored in `self._vehicle.state`. -/
inductive SVal where
  | j (v : JVal)
  | time (t : Int)
  | parsedTime (raw : JVal)
  | floatOf (raw : JVal)
  | outdoorTempOf (raw : JVal)
  | position (lat lon : JVal) (capturedRaw : Option JVal)
  deriving Repr, DecidableEq

/-- Parsed `VehicleDataResponse` field: name, value and the capture timestamp
as parsed by `util.parse_datetime` (integer timestamp, `none` when parsing
yields `None`).  The JSON-to-`VehicleDataResponse` decoding itself is
peripheral to every claim and is abstracted: the fetch outcome carries the
decoded response. -/
structure DataField where
  name : String
  value : JVal
  measure_time : Option Int
  deriving Repr, DecidableEq

/-- Parsed entry of `VehicleDataResponse.states`. -/
structure StateEntry where
  name : String
  value : JVal
  measure_time : Option Int
  deriving Repr, DecidableEq

/-- The decoded `VehicleDataResponse` as consumed by
`update_vehicle_statusreport`. -/
structure StatusReportData where
  data_fields : List DataField
  states : List StateEntry
  deriving Repr, DecidableEq

/-- One trip entry of the raw `tripDataList.tripData` JSON consumed by
`AudiService.get_tripdata` (only the fields the algorithm touches). -/
structure TripEntry where
  tripID : Int
  startMileage : Int
  overallMileage : Int
  deriving Repr, DecidableEq

/-- The state of one `AudiConnectVehicle`. -/
structure Veh where
  vin : String
  fields : List (String × JVal)
  state : List (String × SVal)
  logged_errors : List String
  no_error : Bool
  support_status_report : Bool
  support_position : Bool
  support_climater : Bool
  support_preheater : Bool
  support_charger : Bool
  support_trip_data : Bool
  deriving Repr, DecidableEq

/-- `AudiConnectVehicle.__init__`: empty telemetry, no logged errors,
`_no_error = False`, all six support flags `True`. -/
def initVehicle (vin : String) : Veh :=
  { vin := vin
    fields := []
    state := []
    logged_errors := []
    no_error := false
    support_status_report := true
    support_position := true
    support_climater := true
    support_preheater := true
    support_charger := true
    support_trip_data := true }

/-- `AudiConnectVehicle.log_exception_once(exception, message)`: sets
`_no_error` to `False` and logs the combined message only the first time it
is seen.  The combined text `message + ": " + str(exception)` is supplied
already assembled (exception renderings are opaque strings in the model). -/
def log_exception_once (v : Veh) (err : String) : Veh :=
  { v with
    no_error := false
    logged_errors :=
      if err ∈ v.logged_errors then v.logged_errors else v.logged_errors ++ [err] }

/-- The identity of a subsystem fetcher; `tripData` covers both
`update_vehicle_shortterm` and `update_vehicle_longterm`, which share
`update_vehicle_tripdata kind` and the single trip-data support flag. -/
inductive Fetcher where
  | statusReport
  | position
  | climater
  | charger
  | preheater
  | tripData (kind : String)
  deriving Repr, DecidableEq

/-- Outcome of the underlying `AudiService` call of one fetcher invocation:
the decoded response on success (the decoded-payload variant matching the
fetcher), a `TimeoutError`, an `aiohttp.ClientResponseError` with its HTTP
status and rendered text, or any other exception with its rendered text. -/
inductive FetchOutcome where
  | okStatus (d : StatusReportData)
  | okJson (j : JVal)
  | okTrips (cur : TripEntry) (rst : Option TripEntry)
  | timeoutErr
  | httpError (status : Nat) (text : String)
  | otherError (text : String)
  deriving Repr, DecidableEq

/-- Result of running one fetcher: the vehicle afterwards and whether the
fetcher re-raised `TimeoutError` (the only exception the fetchers let
escape, for `call_update` to retry on). -/
structure FetchStep where
  veh : Veh
  timeoutRaised : Bool
  deriving Repr, DecidableEq

/-- Success branch of `update_vehicle_statusreport`: replace
`self._vehicle.fields` by the name-to-value dict of `data_fields`, seed
`last_update_time` with `datetime(1970,1,1)` (timestamp 0), raise it to the
max parsed `measure_time` over `data_fields` and `states`, then write every
state entry. -/
def statusreport_merge (v : Veh) (d : StatusReportData) : Veh :=
  let fields := d.data_fields.foldl (fun fs f => setAssoc fs f.name f.value) []
  let lut0 : Int := 0
  let lut1 := d.data_fields.foldl
    (fun acc f => match f.measure_time with
      | some t => max acc t
      | none => acc) lut0
  let lut2 := d.states.foldl
    (fun acc s => match s.measure_time with
      | some t => max acc t
      | none => acc) lut1
  let st1 := setAssoc v.state "last_update_time" (SVal.time lut2)
  let st2 := d.states.foldl (fun st s => setAssoc st s.name (SVal.j s.value)) st1
  { v with fields := fields, state := st2 }

/-- `AudiConnectVehicle.update_vehicle_statusreport`.  403/404 permanently
disables the status-report flag; every other `ClientResponseError` status and
every other exception goes through `log_exception_once`; `TimeoutError` is
re-raised. -/
def update_vehicle_statusreport (v : Veh) (out : FetchOutcome) : FetchStep :=
  if !v.support_status_report then ⟨v, false⟩
  else
    match out with
    | FetchOutcome.okStatus d => ⟨statusreport_merge v d, false⟩
    | FetchOutcome.timeoutErr => ⟨v, true⟩
    | FetchOutcome.httpError s t =>
      if s = 403 ∨ s = 404 then ⟨{ v with support_status_report := false }, false⟩
      else
        ⟨log_exception_once v
          ("Unable to obtain the vehicle status report of " ++ v.vin ++ ": " ++ t), false⟩
    | FetchOutcome.otherError t =>
      ⟨log_exception_once v
        ("Unable to obtain the vehicle status report of " ++ v.vin ++ ": " ++ t), false⟩
    | _ => ⟨v, false⟩

/-- `AudiConnectVehicle.update_vehicle_position`.  On success the source
reads `resp["data"]["lat"]`/`["lon"]` (a missing key raises and lands in the
generic handler, which only logs) and stores the position dict; the
timestamp/parktime slot carries the raw `carCapturedTimestamp` value when the
key is present (`util.parse_datetime` is applied to it in the source) and is
absent otherwise.  403/404 disables the position flag; 502 logs a warning,
204 and all remaining statuses as well as generic exceptions only log. -/
def update_vehicle_position (v : Veh) (out : FetchOutcome) : FetchStep :=
  if !v.support_position then ⟨v, false⟩
  else
    match out with
    | FetchOutcome.okJson resp =>
      if resp = JVal.null then ⟨v, false⟩
      else
        match jIndex resp "data" with
        | none => ⟨v, false⟩
        | some data =>
          match jIndex data "lat", jIndex data "lon" with
          | some lat, some lon =>
            let captured := if jHasKey data "carCapturedTimestamp"
              then some (jGet data "carCapturedTimestamp") else none
            ⟨{ v with state := setAssoc v.state "position" (SVal.position lat lon captured) },
              false⟩
          | _, _ => ⟨v, false⟩
    | FetchOutcome.timeoutErr => ⟨v, true⟩
    | FetchOutcome.httpError s _ =>
      if s = 403 ∨ s = 404 then ⟨{ v with support_position := false }, false⟩
      else ⟨v, false⟩
    | FetchOutcome.otherError _ => ⟨v, false⟩
    | _ => ⟨v, false⟩

/-- `AudiConnectVehicle.update_vehicle_climater`.  On a truthy response the
source stores five values extracted with `get_attr`; `outdoorTemperature` is
`round(float(tmp) / 10 - 273, 1)` when `tmp` is not `None`
(kept symbolic as `.outdoorTempOf tmp`) and `None` otherwise;
`vehicleParkingClock` goes through `util.parse_datetime` (kept symbolic).
403/404 disables the climater flag; 502/204/others and generic exceptions
only log. -/
def update_vehicle_climater (v : Veh) (out : FetchOutcome) : FetchStep :=
  if !v.support_climater then ⟨v, false⟩
  else
    match out with
    | FetchOutcome.okJson result =>
      if jTruthy result then
        let st1 := setAssoc v.state "climatisationState"
          (SVal.j (get_attr result
            "climater.status.climatisationStatusData.climatisationState.content"))
        let tmp := get_attr result
          "climater.status.temperatureStatusData.outdoorTemperature.content"
        let st2 := setAssoc st1 "outdoorTemperature"
          (if tmp ≠ JVal.null then SVal.outdoorTempOf tmp else SVal.j JVal.null)
        let st3 := setAssoc st2 "remainingClimatisationTime"
          (SVal.j (get_attr result
            "climater.status.climatisationStatusData.remainingClimatisationTime.content"))
        let st4 := setAssoc st3 "vehicleParkingClock"
          (SVal.parsedTime (get_attr result
            "climater.status.vehicleParkingClockStatusData.vehicleParkingClock.content"))
        let st5 := setAssoc st4 "isMirrorHeatingActive"
          (SVal.j (get_attr result
            "climater.status.climatisationStatusData.climatisationElementStates.isMirrorHeatingActive.content"))
        ⟨{ v with state := st5 }, false⟩
      else ⟨v, false⟩
    | FetchOutcome.timeoutErr => ⟨v, true⟩
    | FetchOutcome.httpError s _ =>
      if s = 403 ∨ s = 404 then ⟨{ v with support_climater := false }, false⟩
      else ⟨v, false⟩
    | FetchOutcome.otherError _ => ⟨v, false⟩
    | _ => ⟨v, false⟩

/-- `AudiConnectVehicle.update_vehicle_preheater`.  On a truthy response
stores `get_attr(result, "statusResponse")`.  The `ClientResponseError`
branch disables the preheater flag for status 403, 404 AND 502 (the
transient-502 branch is commented out in the source); every other status and
every generic exception goes through `log_exception_once`. -/
def update_vehicle_preheater (v : Veh) (out : FetchOutcome) : FetchStep :=
  if !v.support_preheater then ⟨v, false⟩
  else
    match out with
    | FetchOutcome.okJson result =>
      if jTruthy result then
        let st := setAssoc v.state "preheaterState" (SVal.j (get_attr result "statusResponse"))
        ⟨{ v with state := st }, false⟩
      else ⟨v, false⟩
    | FetchOutcome.timeoutErr => ⟨v, true⟩
    | FetchOutcome.httpError s t =>
      if s = 403 ∨ s = 404 ∨ s = 502 then ⟨{ v with support_preheater := false }, false⟩
      else
        ⟨log_exception_once v
          ("Unable to obtain the vehicle preheater state for " ++ v.vin ++ ": " ++ t), false⟩
    | FetchOutcome.otherError t =>
      ⟨log_exception_once v
        ("Unable to obtain the vehicle preheater state for " ++ v.vin ++ ": " ++ t), false⟩
    | _ => ⟨v, false⟩

/-- The eighteen `state` keys written by the charger success branch, in
source order, each holding the `get_attr` extraction of the corresponding
path.  `actualChargeRate` is converted with `float(...)` when not `None`
(kept symbolic as `.floatOf`). -/
def charger_merge (v : Veh) (result : JVal) : Veh :=
  let g := fun path => SVal.j (get_attr result path)
  let st := setAssoc v.state "maxChargeCurrent" (g "charger.settings.maxChargeCurrent.content")
  let st := setAssoc st "chargingState"
    (g "charger.status.chargingStatusData.chargingState.content")
  let rate := get_attr result "charger.status.chargingStatusData.actualChargeRate.content"
  let st := setAssoc st "actualChargeRate"
    (if rate ≠ JVal.null then SVal.floatOf rate else SVal.j JVal.null)
  let st := setAssoc st "actualChargeRateUnit"
    (g "charger.status.chargingStatusData.chargeRateUnit.content")
  let st := setAssoc st "chargingPower"
    (g "charger.status.chargingStatusData.chargingPower.content")
  let st := setAssoc st "chargingMode"
    (g "charger.status.chargingStatusData.chargingMode.content")
  let st := setAssoc st "energyFlow"
    (g "charger.status.chargingStatusData.energyFlow.content")
  let st := setAssoc st "engineTypeFirstEngine"
    (g "charger.status.cruisingRangeStatusData.engineTypeFirstEngine.content")
  let st := setAssoc st "engineTypeSecondEngine"
    (g "charger.status.cruisingRangeStatusData.engineTypeSecondEngine.content")
  let st := setAssoc st "hybridRange"
    (g "charger.status.cruisingRangeStatusData.hybridRange.content")
  let st := setAssoc st "primaryEngineRange"
    (g "charger.status.cruisingRangeStatusData.primaryEngineRange.content")
  let st := setAssoc st "secondaryEngineRange"
    (g "charger.status.cruisingRangeStatusData.secondaryEngineRange.content")
  let st := setAssoc st "stateOfCharge"
    (g "charger.status.batteryStatusData.stateOfCharge.content")
  let st := setAssoc st "remainingChargingTime"
    (g "charger.status.batteryStatusData.remainingChargingTime.content")
  let st := setAssoc st "plugState" (g "charger.status.plugStatusData.plugState.content")
  let st := setAssoc st "plugLockState"
    (g "charger.status.plugStatusData.plugLockState.content")
  let st := setAssoc st "externalPower"
    (g "charger.status.plugStatusData.externalPower.content")
  let st := setAssoc st "plugledColor"
    (g "charger.status.plugStatusData.plugledColor.content")
  { v with state := st }

/-- `AudiConnectVehicle.update_vehicle_charger`.  403/404 disables the
charger flag; 502 logs a warning; every other `ClientResponseError` and
generic exception goes through `log_exception_once`. -/
def update_vehicle_charger (v : Veh) (out : FetchOutcome) : FetchStep :=
  if !v.support_charger then ⟨v, false⟩
  else
    match out with
    | FetchOutcome.okJson result =>
      if jTruthy result then ⟨charger_merge v result, false⟩ else ⟨v, false⟩
    | FetchOutcome.timeoutErr => ⟨v, true⟩
    | FetchOutcome.httpError s t =>
      if s = 403 ∨ s = 404 then ⟨{ v with support_charger := false }, false⟩
      else if s = 502 then ⟨v, false⟩
      else
        ⟨log_exception_once v
          ("Unable to obtain the vehicle charger state for " ++ v.vin ++ ": " ++ t), false⟩
    | FetchOutcome.otherError t =>
      ⟨log_exception_once v
        ("Unable to obtain the vehicle charger state for " ++ v.vin ++ ": " ++ t), false⟩
    | _ => ⟨v, false⟩

/-- `AudiConnectVehicle.update_vehicle_tripdata(kind)`.  On success the
source builds the `kind_current` dict literal, which evaluates
`td_cur.zeroEmissionDistance`; `TripDataResponse` defines no such attribute,
so the dict literal raises `AttributeError` before anything is assigned and
the generic handler only logs — the success branch therefore leaves the
vehicle unchanged.  403/404 disables the trip-data flag; 502 warns, 204 and
other statuses and generic exceptions only log. -/
def update_vehicle_tripdata (v : Veh) (_kind : String) (out : FetchOutcome) : FetchStep :=
  if !v.support_trip_data then ⟨v, false⟩
  else
    match out with
    | FetchOutcome.okTrips _ _ => ⟨v, false⟩
    | FetchOutcome.timeoutErr => ⟨v, true⟩
    | FetchOutcome.httpError s _ =>
      if s = 403 ∨ s = 404 then ⟨{ v with support_trip_data := false }, false⟩
      else ⟨v, false⟩
    | FetchOutcome.otherError _ => ⟨v, false⟩
    | _ => ⟨v, false⟩

/-- Dispatch one fetcher.  Decoded-payload variants that the fetcher's
service call never produces (e.g. `okStatus` for the position fetcher) fall
into the catch-all no-op arms of the individual fetchers. -/
def runFetcher : Fetcher → Veh → FetchOutcome → FetchStep
  | Fetcher.statusReport, v, out => update_vehicle_statusreport v out
  | Fetcher.position, v, out => update_vehicle_position v out
  | Fetcher.climater, v, out => update_vehicle_climater v out
  | Fetcher.charger, v, out => update_vehicle_charger v out
  | Fetcher.preheater, v, out => update_vehicle_preheater v out
  | Fetcher.tripData kind, v, out => update_vehicle_tripdata v kind out

/-- The support flag a fetcher is guarded by. -/
def flagOf : Fetcher → Veh → Bool
  | Fetcher.statusReport, v => v.support_status_report
  | Fetcher.position, v => v.support_position
  | Fetcher.climater, v => v.support_climater
  | Fetcher.charger, v => v.support_charger
  | Fetcher.preheater, v => v.support_preheater
  | Fetcher.tripData _, v => v.support_trip_data

/-- Pointwise comparison of the six support flags: every flag of `w` implies
the corresponding flag of `v` (i.e. `w`'s flags are below `v`'s). -/
def flagsLE (w v : Veh) : Prop :=
  (w.support_status_report = true → v.support_status_report = true) ∧
  (w.support_position = true → v.support_position = true) ∧
  (w.support_climater = true → v.support_climater = true) ∧
  (w.support_preheater = true → v.support_preheater = true) ∧
  (w.support_charger = true → v.support_charger = true) ∧
  (w.support_trip_data = true → v.support_trip_data = true)

/-- Run a sequence of fetcher invocations with their outcomes. -/
def runSteps (v : Veh) (steps : List (Fetcher × FetchOutcome)) : Veh :=
  steps.foldl (fun w p => (runFetcher p.1 w p.2).veh) v

/-! ## `AudiConnectVehicle.update` and `AudiConnectAccount.update` (claim C8)

`AudiConnectVehicle.update` sets `_no_error = True`, then runs the fixed
fetcher sequence (status report, short-term trips, long-term trips, position,
climater, preheater — the charger step is commented out in the source), each
wrapped in `call_update(fn, 3)`.  A `TimeoutError` that survives the three
attempts escapes into the outer handler, which logs and falls off the end:
the method then returns `None`.  Otherwise it returns `_no_error`.

`AudiConnectAccount.update` (with the vehicle list already fetched and no
VIN filter) loops `add_or_update_vehicle` over all vehicles; a vehicle update
returning `False` sets `self._loggedin = False` but the loop continues.  The
update listeners then run inside the same `try`; an `OSError` anywhere in the
`try` block (vehicle-list fetch or a listener callback) is caught, sets
`_loggedin = False` and returns `False`; otherwise `update` returns
`True`. -/

/-- The Python return value of `AudiConnectVehicle.update`. -/
inductive VehUpdateResult where
  | retTrue
  | retFalse
  | retNone
  deriving Repr, DecidableEq

/-- The fixed fetcher sequence of `AudiConnectVehicle.update`. -/
def updateSequence : List Fetcher :=
  [Fetcher.statusReport, Fetcher.tripData "shortTerm", Fetcher.tripData "longTerm",
   Fetcher.position, Fetcher.climater, Fetcher.preheater]

/-- `call_update(fetcher, 3)` composed with the fetcher itself: run the
fetcher on attempt outcomes `outs i`, retrying (after a 2s sleep) while it
re-raises `TimeoutError` and `ntries > 1`.  Returns the vehicle afterwards
and whether `TimeoutError` finally escaped. -/
def call_update_fetcher (f : Fetcher) (outs : Nat → FetchOutcome) :
    Nat → Nat → Veh → Veh × Bool
  | ntries, i, v =>
    let r := runFetcher f v (outs i)
    if r.timeoutRaised then
      match ntries with
      | n + 2 => call_update_fetcher f outs (n + 1) (i + 1) v
      | _ => (v, true)
    else (r.veh, false)

/-- The per-cycle fetch outcomes of one vehicle: for each fetcher of the
sequence, the outcome of each retry attempt. -/
def VehCycle : Type := Fetcher → Nat → FetchOutcome

/-- Run the tail of `AudiConnectVehicle.update` over the remaining fetchers. -/
def vehicle_update_seq (outs : VehCycle) : List Fetcher → Veh → Veh × VehUpdateResult
  | [], v => (v, if v.no_error then VehUpdateResult.retTrue else VehUpdateResult.retFalse)
  | f :: rest, v =>
    let r := call_update_fetcher f (outs f) 3 0 v
    if r.2 then (r.1, VehUpdateResult.retNone)
    else vehicle_update_seq outs rest r.1

/-- `AudiConnectVehicle.update`. -/
def vehicle_update (v : Veh) (outs : VehCycle) : Veh × VehUpdateResult :=
  vehicle_update_seq outs updateSequence { v with no_error := true }

/-- Observable outcome of one `AudiConnectAccount.update` call. -/
structure UpdateRun where
  vehicles : List Veh
  loggedin : Bool
  returned : Bool
  processed : Nat
  listenersFired : Bool
  deriving Repr, DecidableEq

/-- The vehicle loop of `AudiConnectAccount.update` (no VIN filter, all
vehicles already known): each vehicle is updated via
`add_or_update_vehicle`, which flips `_loggedin` to `False` exactly when
`vehicle.update()` returns `False` (`is False` — `None` does not count). -/
def account_vehicle_loop (loggedin : Bool) :
    List (Veh × VehCycle) → List Veh × Bool × Nat
  | [] => ([], loggedin, 0)
  | (v, outs) :: rest =>
    let r := vehicle_update v outs
    let logged := if r.2 = VehUpdateResult.retFalse then false else loggedin
    let tail := account_vehicle_loop logged rest
    (r.1 :: tail.1, tail.2.1, tail.2.2 + 1)

/-- `AudiConnectAccount.update(vinlist=None)` in the steady state: already
logged in (the not-logged-in early return is the `loggedin = false` branch),
vehicle list already fetched.  `listenerOSError` injects an `OSError` raised
by an update listener, the only exception the loop itself can produce (the
per-vehicle update swallows everything). -/
def account_update (loggedin : Bool) (vehOuts : List (Veh × VehCycle))
    (listenerOSError : Bool) : UpdateRun :=
  if loggedin = false then
    ⟨vehOuts.map Prod.fst, false, false, 0, false⟩
  else
    let loop := account_vehicle_loop true vehOuts
    if listenerOSError then
      ⟨loop.1, false, false, loop.2.2, false⟩
    else
      ⟨loop.1, loop.2.1, true, loop.2.2, true⟩

/-! ## Mutating-action wrappers on `AudiConnectAccount` (claim C7)

Each wrapper ensures login, runs the underlying `AudiService` action (whose
entire effect — POST plus status polling — is summarised by an
`Except String Unit` outcome), notifies observers on success and returns
`True`.  The distinguishing point for claim C7 is the exception handler:
`set_vehicle_lock`, `set_vehicle_climatisation`, `set_battery_charger`,
`set_vehicle_window_heating` and `set_vehicle_pre_heater` log via
`util.log_exception` and fall off the end of the function, returning `None`;
only `start_climate_control` returns `False` there.  The Bool result
component records whether observers were notified. -/

/-- A Python return value of the action wrappers: `True`, `False`, or the
implicit `None`. -/
inductive ActionResult where
  | someTrue
  | someFalse
  | noneResult
  deriving Repr, DecidableEq

/-- Shared shape of the five wrappers whose exception handler only logs.
`loggedin` is the login state after the ensure-login preamble. -/
def action_wrapper_logonly (loggedin : Bool) (out : Except String Unit) :
    ActionResult × Bool :=
  if loggedin = false then (ActionResult.someFalse, false)
  else
    match out with
    | Except.ok _ => (ActionResult.someTrue, true)
    | Except.error _ => (ActionResult.noneResult, false)

/-- `AudiConnectAccount.set_vehicle_lock`. -/
def set_vehicle_lock (loggedin : Bool) (out : Except String Unit) : ActionResult × Bool :=
  action_wrapper_logonly loggedin out

/-- `AudiConnectAccount.set_vehicle_climatisation`. -/
def set_vehicle_climatisation (loggedin : Bool) (out : Except String Unit) :
    ActionResult × Bool :=
  action_wrapper_logonly loggedin out

/-- `AudiConnectAccount.set_battery_charger`. -/
def set_battery_charger (loggedin : Bool) (out : Except String Unit) : ActionResult × Bool :=
  action_wrapper_logonly loggedin out

/-- `AudiConnectAccount.set_vehicle_window_heating`. -/
def set_vehicle_window_heating (loggedin : Bool) (out : Except String Unit) :
    ActionResult × Bool :=
  action_wrapper_logonly loggedin out

/-- `AudiConnectAccount.set_vehicle_pre_heater`. -/
def set_vehicle_pre_heater (loggedin : Bool) (out : Except String Unit) :
    ActionResult × Bool :=
  action_wrapper_logonly loggedin out

/-- `AudiConnectAccount.start_climate_control`: identical shape, but its
handler logs and explicitly returns `False`. -/
def start_climate_control (loggedin : Bool) (out : Except String Unit) :
    ActionResult × Bool :=
  if loggedin = false then (ActionResult.someFalse, false)
  else
    match out with
    | Except.ok _ => (ActionResult.someTrue, true)
    | Except.error _ => (ActionResult.someFalse, false)

/-! ## `AudiService.refresh_token_if_necessary` (claims C5, C10)

The session state carries the token dictionaries as `JVal` (or `Option JVal`
for attributes that are `None`/unset before login) plus the endpoint
configuration.  The three refresh POSTs are supplied as an oracle of
responses (`Except` for a raised exception, including `json.loads` failures);
the result includes the number of network requests performed.  The non-
numeric-`expires_in` case would raise `TypeError` in Python; the comparison
is modelled for numeric tokens (the claims only concern tokens carrying a
numeric `expires_in`). -/

/-- The mutable session attributes touched by `refresh_token_if_necessary`. -/
structure ServiceState where
  mbboauthToken : Option JVal
  vwToken : Option JVal
  bearer_token_json : Option JVal
  audiToken : Option JVal
  xclientId : Option String
  mbbOAuthBaseURL : Option String
  tokenEndpoint : String
  authorizationServerBaseURLLive : String
  client_id : String
  deriving Repr, DecidableEq

/-- Responses of the three token POSTs of one refresh sequence (MBB refresh,
IDK/bearer refresh, AZS/"audi" token). -/
structure RefreshNet where
  mbbRefreshRsp : Except String JVal
  bearerRsp : Except String JVal
  azsRsp : Except String JVal
  deriving Repr

/-- Numeric value of a JSON number, defaulting to 0 (the default is never
reached under the claims' numeric-`expires_in` hypothesis). -/
def jInt : JVal → Int
  | JVal.num n => n
  | _ => 0

/-- `AudiService.refresh_token_if_necessary(elapsed_sec)`: result state,
returned boolean, and number of network requests performed. -/
def refresh_token_if_necessary (st : ServiceState) (elapsed_sec : Int)
    (net : RefreshNet) : ServiceState × Bool × Nat :=
  match st.mbboauthToken with
  | none => (st, false, 0)
  | some tok =>
    if !jHasKey tok "refresh_token" then (st, false, 0)
    else if !jHasKey tok "expires_in" then (st, false, 0)
    else if elapsed_sec + 5 * 60 < jInt (jGet tok "expires_in") then (st, false, 0)
    else
      match net.mbbRefreshRsp with
      | Except.error _ => (st, false, 1)
      | Except.ok vw =>
        let st1 := { st with vwToken := some vw }
        let st2 :=
          if jHasKey vw "refresh_token" then
            { st1 with mbboauthToken := some (jSetKey tok "refresh_token" (jGet vw "refresh_token")) }
          else st1
        match net.bearerRsp with
        | Except.error _ => (st2, false, 2)
        | Except.ok br =>
          let st3 := { st2 with bearer_token_json := some br }
          match net.azsRsp with
          | Except.error _ => (st3, false, 3)
          | Except.ok az => ({ st3 with audiToken := some az }, true, 3)

/-! ## `AudiService.get_tripdata` (claim C6)

The source sorts the raw trip dicts descending by `overallMileage`
(`sorted(..., reverse=True)`, a stable sort), takes the head as the current
trip and scans the whole sorted list (head included; the head's self-
comparison `0 > 2` is false and its self-merge is a no-op): the first entry
whose `startMileage` is below the running current's `startMileage` by
strictly more than 2 (signed difference) becomes the reset trip; entries
before it overwrite the running current's `tripID` and `startMileage`.
When no reset trip is found the source calls `TripDataResponse(None)`, which
raises `TypeError`; the scan result itself is modelled. -/

/-- The descending-by-`overallMileage` order used by the sort. -/
def tripGE (a b : TripEntry) : Prop := b.overallMileage ≤ a.overallMileage

instance : DecidableRel tripGE := fun _ _ => Int.decLe _ _

instance : IsTotal TripEntry tripGE :=
  ⟨fun a b => by unfold tripGE; omega⟩

instance : IsTrans TripEntry tripGE :=
  ⟨fun a b c hab hbc => by unfold tripGE at hab hbc ⊢; omega⟩

/-- `sorted(trips, key=overallMileage, reverse=True)`: Python's `sorted` is
stable, so it is modelled by stable insertion sort with the ≥-by-
`overallMileage` relation (any two stable sorts by the same key agree). -/
def sortDescByOverall (trips : List TripEntry) : List TripEntry :=
  trips.insertionSort tripGE

/-- The scan loop of `get_tripdata`: `cur` is the running current trip
(`td_current`, whose `tripID`/`startMileage` the merges overwrite). -/
def tripLoop (cur : TripEntry) : List TripEntry → TripEntry × Option TripEntry
  | [] => (cur, none)
  | t :: rest =>
    if cur.startMileage - t.startMileage > 2 then (cur, some t)
    else tripLoop { cur with tripID := t.tripID, startMileage := t.startMileage } rest

/-- `AudiService.get_tripdata` on the decoded trip list: `none` on an empty
list (the source raises `IndexError` at `td_sorted[0]`). -/
def get_tripdata (trips : List TripEntry) : Option (TripEntry × Option TripEntry) :=
  match sortDescByOverall trips with
  | [] => none
  | c :: rest => some (tripLoop c (c :: rest))

/-- Claim C6's description of the scan, read literally: the reset trip is
the first entry after the head whose `startMileage` DIFFERS from the running
current's `startMileage` by strictly more than 2 — an absolute difference. -/
def tripScanSpecAbs (cur : TripEntry) : List TripEntry → TripEntry × Option TripEntry
  | [] => (cur, none)
  | t :: rest =>
    if (cur.startMileage - t.startMileage).natAbs > 2 then (cur, some t)
    else tripScanSpecAbs { cur with tripID := t.tripID, startMileage := t.startMileage } rest

/-- Claim C6 as stated (absolute-difference reading), head taken as current,
subsequent entries scanned. -/
def get_tripdataSpecAbs (trips : List TripEntry) : Option (TripEntry × Option TripEntry) :=
  match sortDescByOverall trips with
  | [] => none
  | c :: rest => some (tripScanSpecAbs c rest)

/-- The amended claim C6's description of the scan: the reset trip is the
first entry after the head whose `startMileage` is BELOW the running
current's `startMileage` by strictly more than 2 (signed difference). -/
def tripScanSpecSigned (cur : TripEntry) : List TripEntry → TripEntry × Option TripEntry
  | [] => (cur, none)
  | t :: rest =>
    if cur.startMileage - t.startMileage > 2 then (cur, some t)
    else tripScanSpecSigned { cur with tripID := t.tripID, startMileage := t.startMileage } rest

/-- The amended claim C6: descending sort, head is current, signed
threshold scan over the subsequent entries. -/
def get_tripdataSpecSigned (trips : List TripEntry) : Option (TripEntry × Option TripEntry) :=
  match sortDescByOverall trips with
  | [] => none
  | c :: rest => some (tripScanSpecSigned c rest)

/-! ## SHA-512 and `AudiService._generate_security_pin_hash` (claim C9)

The source computes `sha512(bytes(pin + byteChallenge)).hexdigest().upper()`
with `hashlib.sha512` and `util.to_byte_array`.  `hashlib.sha512` is the
FIPS 180-4 SHA-512 function, implemented here over `Nat` with explicit
reduction modulo `2^64`.  Bytes are `Nat` values below 256, words `Nat`
values below `2^64`. -/

def w64 : Nat := 18446744073709551616

def rotr (n x : Nat) : Nat := ((x >>> n) ||| (x <<< (64 - n))) % w64

def shr (n x : Nat) : Nat := x >>> n

def not64 (x : Nat) : Nat := (w64 - 1) ^^^ x

def bSig0 (x : Nat) : Nat := (rotr 28 x) ^^^ (rotr 34 x) ^^^ (rotr 39 x)

def bSig1 (x : Nat) : Nat := (rotr 14 x) ^^^ (rotr 18 x) ^^^ (rotr 41 x)

def sSig0 (x : Nat) : Nat := (rotr 1 x) ^^^ (rotr 8 x) ^^^ (shr 7 x)

def sSig1 (x : Nat) : Nat := (rotr 19 x) ^^^ (rotr 61 x) ^^^ (shr 6 x)

def chF (e f g : Nat) : Nat := (e &&& f) ^^^ ((not64 e) &&& g)

def majF (a b c : Nat) : Nat := (a &&& b) ^^^ (a &&& c) ^^^ (b &&& c)

/-- The 80 SHA-512 round constants. -/
def sha512K : List Nat := [
  4794697086780616226, 8158064640168781261, 13096744586834688815, 16840607885511220156,
  4131703408338449720, 6480981068601479193, 10538285296894168987, 12329834152419229976,
  15566598209576043074, 1334009975649890238, 2608012711638119052, 6128411473006802146,
  8268148722764581231, 9286055187155687089, 11230858885718282805, 13951009754708518548,
  16472876342353939154, 17275323862435702243, 1135362057144423861, 2597628984639134821,
  3308224258029322869, 5365058923640841347, 6679025012923562964, 8573033837759648693,
  10970295158949994411, 12119686244451234320, 12683024718118986047, 13788192230050041572,
  14330467153632333762, 15395433587784984357, 489312712824947311, 1452737877330783856,
  2861767655752347644, 3322285676063803686, 5560940570517711597, 5996557281743188959,
  7280758554555802590, 8532644243296465576, 9350256976987008742, 10552545826968843579,
  11727347734174303076, 12113106623233404929, 14000437183269869457, 14369950271660146224,
  15101387698204529176, 15463397548674623760, 17586052441742319658, 1182934255886127544,
  1847814050463011016, 2177327727835720531, 2830643537854262169, 3796741975233480872,
  4115178125766777443, 5681478168544905931, 6601373596472566643, 7507060721942968483,
  8399075790359081724, 8693463985226723168, 9568029438360202098, 10144078919501101548,
  10430055236837252648, 11840083180663258601, 13761210420658862357, 14299343276471374635,
  14566680578165727644, 15097957966210449927, 16922976911328602910, 17689382322260857208,
  500013540394364858, 748580250866718886, 1242879168328830382, 1977374033974150939,
  2944078676154940804, 3659926193048069267, 4368137639120453308, 4836135668995329356,
  5532061633213252278, 6448918945643986474, 6902733635092675308, 7801388544844847127]

/-- The SHA-512 initial hash value. -/
def sha512H0 : List Nat := [
  7640891576956012808, 13503953896175478587,
  4354685564936845355, 11912009170470909681,
  5840696475078001361, 11170449401992604703,
  2270897969802886507, 6620516959819538809]

/-- `width` big-endian bytes of `n`. -/
def beBytes : Nat → Nat → List Nat
  | 0, _ => []
  | k + 1, n => beBytes k (n / 256) ++ [n % 256]

/-- FIPS 180-4 padding: append `0x80`, zero bytes up to 112 mod 128, then the
message bit length as a 128-bit big-endian integer. -/
def padMessage (msg : List Nat) : List Nat :=
  let len := msg.length
  let padZeros := (128 - ((len + 17) % 128)) % 128
  msg ++ [128] ++ List.replicate padZeros 0 ++ beBytes 16 (8 * len)

/-- Big-endian 64-bit words of a byte list whose length is a multiple of 8. -/
def toWords : List Nat → List Nat
  | b0 :: b1 :: b2 :: b3 :: b4 :: b5 :: b6 :: b7 :: rest =>
    ((((((((b0 * 256 + b1) * 256 + b2) * 256 + b3) * 256 + b4) * 256 + b5) * 256
      + b6) * 256 + b7)) :: toWords rest
  | _ => []

/-- Chunk a word list (length a multiple of 16) into 16-word blocks. -/
def toBlocks : List Nat → List (List Nat)
  | w0 :: w1 :: w2 :: w3 :: w4 :: w5 :: w6 :: w7 ::
    w8 :: w9 :: w10 :: w11 :: w12 :: w13 :: w14 :: w15 :: rest =>
    [w0, w1, w2, w3, w4, w5, w6, w7, w8, w9, w10, w11, w12, w13, w14, w15] :: toBlocks rest
  | _ => []

/-- Extend the message schedule by `n` words; `ws` holds the schedule so far
in reverse (head = most recent word). -/
def extendW : Nat → List Nat → List Nat
  | 0, ws => ws
  | n + 1, ws =>
    let nw := (sSig1 (ws.getD 1 0) + ws.getD 6 0 + sSig0 (ws.getD 14 0) + ws.getD 15 0) % w64
    extendW n (nw :: ws)

/-- One SHA-512 round on the working variables `[a,b,c,d,e,f,g,h]`. -/
def compressRound (st : List Nat) (wt kt : Nat) : List Nat :=
  match st with
  | [a, b, c, d, e, f, g, h] =>
    let t1 := (h + bSig1 e + chF e f g + kt + wt) % w64
    let t2 := (bSig0 a + majF a b c) % w64
    [(t1 + t2) % w64, a, b, c, (d + t1) % w64, e, f, g]
  | other => other

/-- Process one 16-word block into the running hash value. -/
def processBlock (h : List Nat) (block : List Nat) : List Nat :=
  let ws := (extendW 64 block.reverse).reverse
  let st := (ws.zip sha512K).foldl (fun st p => compressRound st p.1 p.2) h
  (h.zip st).map (fun p => (p.1 + p.2) % w64)

/-- The eight 64-bit words of the SHA-512 digest of a byte list. -/
def sha512Words (msg : List Nat) : List Nat :=
  (toBlocks (toWords (padMessage msg))).foldl processBlock sha512H0

/-- Lowercase hex digit. -/
def hexDigit (n : Nat) : Char :=
  if n < 10 then Char.ofNat (48 + n) else Char.ofNat (87 + n)

/-- `width`-digit lowercase hexadecimal rendering of `n`. -/
def toHexLower : Nat → Nat → String
  | 0, _ => ""
  | k + 1, n => toHexLower k (n / 16) ++ String.singleton (hexDigit (n % 16))

/-- `hashlib.sha512(bytes(msg)).hexdigest()`: 128 lowercase hex characters. -/
def sha512Hex (msg : List Nat) : String :=
  String.join ((sha512Words msg).map (toHexLower 16))

/-- Value of one hex character as accepted by Python `int(…, 16)`. -/
def hexVal (c : Char) : Option Nat :=
  if 48 ≤ c.toNat ∧ c.toNat ≤ 57 then some (c.toNat - 48)
  else if 97 ≤ c.toNat ∧ c.toNat ≤ 102 then some (c.toNat - 87)
  else if 65 ≤ c.toNat ∧ c.toNat ≤ 70 then some (c.toNat - 55)
  else none

/-- `util.to_byte_array` on a character list: `int(hexString[i:i+2], 16)` for
each 2-character chunk (a trailing single character parses as one digit);
`none` models the `ValueError` on a non-hex character. -/
def hexPairs : List Char → Option (List Nat)
  | [] => some []
  | [c] => (hexVal c).map (fun v => [v])
  | c1 :: c2 :: rest => do
    let hi ← hexVal c1
    let lo ← hexVal c2
    let tail ← hexPairs rest
    pure ((16 * hi + lo) :: tail)

/-- `util.to_byte_array(hexString)`. -/
def to_byte_array (hexString : String) : Option (List Nat) :=
  hexPairs hexString.toList

/-- `str.upper()` on one ASCII character. -/
def upperChar (c : Char) : Char :=
  if 97 ≤ c.toNat ∧ c.toNat ≤ 122 then Char.ofNat (c.toNat - 32) else c

/-- `str.upper()` on an ASCII string (the hex digest is ASCII). -/
def upperString (s : String) : String := String.mk (s.data.map upperChar)

/-- `AudiService._generate_security_pin_hash(challenge)` with the SPIN made
explicit: `sha512(bytes(pin + byteChallenge)).hexdigest().upper()`. -/
def generate_security_pin_hash (spin challenge : String) : Option String := do
  let pin ← to_byte_array spin
  let byteChallenge ← to_byte_array challenge
  pure (upperString (sha512Hex (pin ++ byteChallenge)))

/-! ## Concrete fixtures used by witnesses and counterexamples -/

/-- A stored MBB token carrying a refresh token and a numeric `expires_in`. -/
def sampleMbbToken : JVal :=
  JVal.mkObj [("refresh_token", JVal.str "RT0"), ("expires_in", JVal.num 3600)]

/-- A stored IDK/bearer token. -/
def sampleBearer : JVal :=
  JVal.mkObj [("access_token", JVal.str "AT0"), ("refresh_token", JVal.str "BRT0"),
    ("id_token", JVal.str "IDT0")]

/-- A logged-in session state. -/
def sampleState : ServiceState :=
  { mbboauthToken := some sampleMbbToken
    vwToken := none
    bearer_token_json := some sampleBearer
    audiToken := none
    xclientId := some "client-0"
    mbbOAuthBaseURL := some "https://mbboauth-1d.prd.ece.vwg-connect.com/mbbcoauth"
    tokenEndpoint := "https://emea.bff.cariad.digital/login/v1/idk/token"
    authorizationServerBaseURLLive := "https://emea.bff.cariad.digital/login/v1/audi"
    client_id := "09b6cbec-cd19-4589-82fd-363dfa8c24da@apps_vw-dilab_com" }

/-- The session state before any login: no MBB token stored. -/
def emptyState : ServiceState := { sampleState with mbboauthToken := none }

/-- A session whose MBB token lacks the `refresh_token` key. -/
def noRefreshTokenState : ServiceState :=
  { sampleState with mbboauthToken := some (JVal.mkObj [("expires_in", JVal.num 3600)]) }

/-- A session whose MBB token lacks the `expires_in` key. -/
def noExpiresInState : ServiceState :=
  { sampleState with mbboauthToken := some (JVal.mkObj [("refresh_token", JVal.str "RT0")]) }

/-- MBB refresh response carrying a new refresh token. -/
def sampleVwRsp : JVal :=
  JVal.mkObj [("access_token", JVal.str "VWAT1"), ("refresh_token", JVal.str "RT1"),
    ("expires_in", JVal.num 3600)]

/-- Bearer refresh response. -/
def sampleBearerRsp : JVal :=
  JVal.mkObj [("access_token", JVal.str "AT1"), ("id_token", JVal.str "IDT1")]

/-- AZS ("audi token") response. -/
def sampleAzsRsp : JVal := JVal.mkObj [("access_token", JVal.str "AZS1")]

/-- A fully successful refresh-network oracle. -/
def sampleNet : RefreshNet :=
  { mbbRefreshRsp := Except.ok sampleVwRsp
    bearerRsp := Except.ok sampleBearerRsp
    azsRsp := Except.ok sampleAzsRsp }

/-! ## Supporting lemmas -/

set_option maxRecDepth 100000 in
/-- Known-answer test for the SHA-512 embedding: the digest of the empty
message (FIPS 180-4 / `hashlib.sha512(b"").hexdigest()`). -/
theorem sha512Hex_empty_kat :
    sha512Hex [] = "cf83e1357eefb8bdf1542850d66d8007d620e4050b5715dc83f4a921d36ce9ce47d0d13c5d85f2b0ff8318d2877eec2f63b931bd47417a81a538327af927da3e" := by
  decide

set_option maxRecDepth 100000 in
/-- Known-answer test for the SHA-512 embedding: the digest of `b"abc"`. -/
theorem sha512Hex_abc_kat :
    sha512Hex [97, 98, 99] = "ddaf35a193617abacc417349ae20413112e6fa4e89a97ea20a9eeee64b55d39a2192992a274fc1a836ba3c23a3feebbd454d4423643ce80e2a9ac94fa54ca49f" := by
  decide

theorem boolImpFalse {a b : Bool} (h : a = true → b = true) (hb : b = false) :
    a = false := by
  cases a
  · rfl
  · rw [h rfl] at hb; exact hb

/-- No fetcher ever raises a support flag: the flags of the resulting
vehicle are pointwise below the flags of the input vehicle. -/
theorem runFetcher_flagsLE (f : Fetcher) (v : Veh) (out : FetchOutcome) :
    flagsLE (runFetcher f v out).veh v := by
  cases f <;> cases out <;>
    simp only [runFetcher, update_vehicle_statusreport, update_vehicle_position,
      update_vehicle_climater, update_vehicle_charger, update_vehicle_preheater,
      update_vehicle_tripdata, statusreport_merge, charger_merge, log_exception_once,
      flagsLE] <;>
    split <;> (try split) <;> (try split) <;> (try split) <;> (try split) <;>
    simp_all

/-- A support flag that is `false` stays `false` after any fetcher run. -/
theorem flagOf_false_stable (f g : Fetcher) (v : Veh) (out : FetchOutcome)
    (h : flagOf f v = false) : flagOf f (runFetcher g v out).veh = false := by
  obtain ⟨h1, h2, h3, h4, h5, h6⟩ := runFetcher_flagsLE g v out
  cases f <;> simp only [flagOf] at h ⊢
  · exact boolImpFalse h1 h
  · exact boolImpFalse h2 h
  · exact boolImpFalse h3 h
  · exact boolImpFalse h5 h
  · exact boolImpFalse h4 h
  · exact boolImpFalse h6 h

/-- A support flag that is `false` stays `false` across any sequence of
fetcher runs. -/
theorem runSteps_flag_false (f : Fetcher) (steps : List (Fetcher × FetchOutcome)) :
    ∀ v : Veh, flagOf f v = false → flagOf f (runSteps v steps) = false := by
  induction steps with
  | nil => intro v h; exact h
  | cons p rest ih =>
    intro v h
    exact ih _ (flagOf_false_stable f p.1 v p.2 h)

/-- A fetcher whose support flag is `false` is a complete no-op. -/
theorem runFetcher_skip (f : Fetcher) (v : Veh) (out : FetchOutcome)
    (h : flagOf f v = false) : runFetcher f v out = ⟨v, false⟩ := by
  cases f <;>
    simp_all [flagOf, runFetcher, update_vehicle_statusreport, update_vehicle_position,
      update_vehicle_climater, update_vehicle_charger, update_vehicle_preheater,
      update_vehicle_tripdata]

/-- A 403 or 404 from a fetcher's service call leaves that fetcher's support
flag `false` (clearing it when it was `true`). -/
theorem runFetcher_403_404 (f : Fetcher) (v : Veh) (s : Nat) (t : String)
    (h : s = 403 ∨ s = 404) :
    flagOf f (runFetcher f v (FetchOutcome.httpError s t)).veh = false := by
  by_cases hf : flagOf f v = false
  · rw [runFetcher_skip f v _ hf]; exact hf
  · replace hf : flagOf f v = true := by
      cases hv : flagOf f v
      · exact absurd hv hf
      · rfl
    cases f <;>
      simp_all [flagOf, runFetcher, update_vehicle_statusreport, update_vehicle_position,
        update_vehicle_climater, update_vehicle_charger, update_vehicle_preheater,
        update_vehicle_tripdata] <;>
      rcases h with h | h <;> simp [h]

/-! ## Claim theorems -/

/-- Claim C1: for every vehicle and every subsystem fetcher, the six
per-vehicle subsystem support flags (status report, position, climater,
charger, preheater, trip data) start `true` when the vehicle object is
created, are set to `false` when that fetcher's HTTP call fails with status
403 or 404, and once `false` are never set back to `true`: every subsequent
update cycle skips the fetcher entirely, and the flags are monotonically
decreasing across any sequence of update operations. -/
theorem C1_support_flags_monotone :
    (∀ vin : String,
      (initVehicle vin).support_status_report = true ∧
      (initVehicle vin).support_position = true ∧
      (initVehicle vin).support_climater = true ∧
      (initVehicle vin).support_preheater = true ∧
      (initVehicle vin).support_charger = true ∧
      (initVehicle vin).support_trip_data = true) ∧
    (∀ (f : Fetcher) (v : Veh) (out : FetchOutcome), flagsLE (runFetcher f v out).veh v) ∧
    (∀ (f : Fetcher) (v : Veh) (s : Nat) (t : String), s = 403 ∨ s = 404 →
      flagOf f (runFetcher f v (FetchOutcome.httpError s t)).veh = false) ∧
    (∀ (f : Fetcher) (v : Veh) (out : FetchOutcome), flagOf f v = false →
      runFetcher f v out = ⟨v, false⟩) ∧
    (∀ (f : Fetcher) (v : Veh) (steps : List (Fetcher × FetchOutcome)),
      flagOf f v = false → flagOf f (runSteps v steps) = false) := by
  refine ⟨fun vin => ⟨rfl, rfl, rfl, rfl, rfl, rfl⟩, runFetcher_flagsLE, runFetcher_403_404,
    runFetcher_skip, ?_⟩
  intro f v steps h
  exact runSteps_flag_false f steps v h

/-- Witness for C1 at concrete inputs: a 404 on the climater fetcher clears
the climater flag of a fresh vehicle, and a fetcher whose flag is already
`false` is a no-op. -/
theorem C1_support_flags_monotone_witness :
    flagOf Fetcher.climater
      (runFetcher Fetcher.climater (initVehicle "WAUZZZ4G7EN000001")
        (FetchOutcome.httpError 404 "Not Found")).veh = false ∧
    runFetcher Fetcher.position
      { initVehicle "WAUZZZ4G7EN000001" with support_position := false }
      (FetchOutcome.okJson JVal.null) =
      ⟨{ initVehicle "WAUZZZ4G7EN000001" with support_position := false }, false⟩ ∧
    flagOf Fetcher.preheater
      (runSteps { initVehicle "WAUZZZ4G7EN000001" with support_preheater := false }
        [(Fetcher.preheater, FetchOutcome.okJson (JVal.str "ok"))]) = false := by
  refine ⟨C1_support_flags_monotone.2.2.1 Fetcher.climater (initVehicle "WAUZZZ4G7EN000001")
      404 "Not Found" (Or.inr rfl),
    C1_support_flags_monotone.2.2.2.1 Fetcher.position
      { initVehicle "WAUZZZ4G7EN000001" with support_position := false }
      (FetchOutcome.okJson JVal.null) (by decide),
    C1_support_flags_monotone.2.2.2.2 Fetcher.preheater
      { initVehicle "WAUZZZ4G7EN000001" with support_preheater := false }
      [(Fetcher.preheater, FetchOutcome.okJson (JVal.str "ok"))] (by decide)⟩

/-- Claim C2 counterexample: a 502 on the preheater fetcher does NOT leave
the support flag untouched — `update_vehicle_preheater` treats 502 like
403/404 and clears `support_preheater` on a fresh vehicle. -/
theorem C2_counterexample :
    (initVehicle "WAUZZZ4G7EN000001").support_preheater = true ∧
    (update_vehicle_preheater (initVehicle "WAUZZZ4G7EN000001")
      (FetchOutcome.httpError 502 "Bad Gateway")).veh.support_preheater = false :=
  ⟨rfl, rfl⟩

/-- Claim C2 as amended: when a fetcher's HTTP call fails with 502, the
position, climater, trip-data and charger fetchers leave the vehicle
completely unchanged; the status-report fetcher leaves the telemetry
dictionaries and all six support flags unchanged (it records the error via
`log_exception_once`, touching only `no_error` and the log-deduplication
set); the preheater fetcher treats 502 like 403/404 and additionally sets
the preheater support flag to `false`. -/
theorem C2_amended_502_transient :
    (∀ (v : Veh) (t : String),
      update_vehicle_position v (FetchOutcome.httpError 502 t) = ⟨v, false⟩) ∧
    (∀ (v : Veh) (t : String),
      update_vehicle_climater v (FetchOutcome.httpError 502 t) = ⟨v, false⟩) ∧
    (∀ (v : Veh) (t k : String),
      update_vehicle_tripdata v k (FetchOutcome.httpError 502 t) = ⟨v, false⟩) ∧
    (∀ (v : Veh) (t : String),
      update_vehicle_charger v (FetchOutcome.httpError 502 t) = ⟨v, false⟩) ∧
    (∀ (v : Veh) (t : String),
      (update_vehicle_statusreport v (FetchOutcome.httpError 502 t)).veh.fields = v.fields ∧
      (update_vehicle_statusreport v (FetchOutcome.httpError 502 t)).veh.state = v.state ∧
      (update_vehicle_statusreport v
        (FetchOutcome.httpError 502 t)).veh.support_status_report = v.support_status_report ∧
      (update_vehicle_statusreport v
        (FetchOutcome.httpError 502 t)).veh.support_position = v.support_position ∧
      (update_vehicle_statusreport v
        (FetchOutcome.httpError 502 t)).veh.support_climater = v.support_climater ∧
      (update_vehicle_statusreport v
        (FetchOutcome.httpError 502 t)).veh.support_preheater = v.support_preheater ∧
      (update_vehicle_statusreport v
        (FetchOutcome.httpError 502 t)).veh.support_charger = v.support_charger ∧
      (update_vehicle_statusreport v
        (FetchOutcome.httpError 502 t)).veh.support_trip_data = v.support_trip_data ∧
      (update_vehicle_statusreport v (FetchOutcome.httpError 502 t)).timeoutRaised = false) ∧
    (∀ (v : Veh) (t : String),
      update_vehicle_preheater v (FetchOutcome.httpError 502 t) =
        ⟨{ v with support_preheater := false }, false⟩) := by
  refine ⟨?_, ?_, ?_, ?_, ?_, ?_⟩
  · intro v t
    by_cases h : v.support_position <;> simp [update_vehicle_position, h]
  · intro v t
    by_cases h : v.support_climater <;> simp [update_vehicle_climater, h]
  · intro v t k
    by_cases h : v.support_trip_data <;> simp [update_vehicle_tripdata, h]
  · intro v t
    by_cases h : v.support_charger <;> simp [update_vehicle_charger, h]
  · intro v t
    by_cases h : v.support_status_report <;>
      simp [update_vehicle_statusreport, h, log_exception_once]
  · intro v t
    by_cases h : v.support_preheater
    · simp [update_vehicle_preheater, h]
    · cases v
      simp_all [update_vehicle_preheater]

/-- Claim C3: with `maxAttempts = 3`, `call_update` invokes a fetcher that
times out on every attempt exactly 3 times, sleeping 2 seconds between
attempts, and then re-raises the timeout; a non-timeout exception propagates
immediately with no further attempts; a normal return ends the retries. -/
theorem C3_call_update_retry :
    (∀ (func : Nat → AttemptOutcome) (i : Nat),
      func i = AttemptOutcome.timeout → func (i + 1) = AttemptOutcome.timeout →
      func (i + 2) = AttemptOutcome.timeout →
      call_update func 3 i = (CallResult.timeoutRaised, 3, [2, 2])) ∧
    (∀ (func : Nat → AttemptOutcome) (ntries i : Nat) (m : String),
      func i = AttemptOutcome.failure m →
      call_update func ntries i = (CallResult.exceptionRaised m, 1, [])) ∧
    (∀ (func : Nat → AttemptOutcome) (ntries i : Nat),
      func i = AttemptOutcome.ok →
      call_update func ntries i = (CallResult.returned, 1, [])) := by
  refine ⟨?_, ?_, ?_⟩
  · intro func i h0 h1 h2
    have e2 : i + 1 + 1 = i + 2 := by omega
    simp [call_update, h0, h1, e2, h2]
  · intro func ntries i m h
    rcases ntries with _ | _ | n <;> simp [call_update, h]
  · intro func ntries i h
    rcases ntries with _ | _ | n <;> simp [call_update, h]

/-- Witness for C3 at a concrete always-timing-out fetcher, a concrete
immediately-failing fetcher and a concrete immediately-returning fetcher. -/
theorem C3_call_update_retry_witness :
    call_update (fun _ => AttemptOutcome.timeout) 3 0 = (CallResult.timeoutRaised, 3, [2, 2]) ∧
    call_update (fun _ => AttemptOutcome.failure "boom") 3 0 =
      (CallResult.exceptionRaised "boom", 1, []) ∧
    call_update (fun _ => AttemptOutcome.ok) 3 0 = (CallResult.returned, 1, []) :=
  ⟨C3_call_update_retry.1 (fun _ => AttemptOutcome.timeout) 0 rfl rfl rfl,
   C3_call_update_retry.2.1 (fun _ => AttemptOutcome.failure "boom") 3 0 "boom" rfl,
   C3_call_update_retry.2.2 (fun _ => AttemptOutcome.ok) 3 0 rfl⟩

theorem check_request_loop_pollsUsed_le (polls : Nat → JVal) (s fc p : String) :
    ∀ (fuel used : Nat),
      (check_request_loop polls s fc p fuel used).pollsUsed ≤ used + fuel := by
  intro fuel
  induction fuel with
  | zero => intro used; simp [check_request_loop, PollResult.pollsUsed]
  | succ n ih =>
    intro used
    rw [check_request_loop]
    split
    · simp only [PollResult.pollsUsed]; omega
    · split
      · simp only [PollResult.pollsUsed]; omega
      · have := ih (used + 1); omega

theorem check_request_loop_all_pending (polls : Nat → JVal) (s fc p : String) :
    ∀ (fuel used : Nat),
      (∀ i, used ≤ i → i < used + fuel →
        get_attr (polls i) p ≠ JVal.null ∧ get_attr (polls i) p ≠ JVal.str fc ∧
        get_attr (polls i) p ≠ JVal.str s) →
      check_request_loop polls s fc p fuel used =
        PollResult.timedOutError (used + fuel) := by
  intro fuel
  induction fuel with
  | zero => intro used _; simp [check_request_loop]
  | succ n ih =>
    intro used h
    obtain ⟨h1, h2, h3⟩ := h used (Nat.le_refl used) (by omega)
    rw [check_request_loop]
    rw [if_neg (by tauto), if_neg h3]
    rw [ih (used + 1) (fun i hi1 hi2 => h i (by omega) (by omega))]
    congr 1
    omega

/-- Claim C4: the action status poll `check_request_succeeded` performs at
most `MAX_RESPONSE_ATTEMPTS = 10` polls (one fixed `REQUEST_STATUS_SLEEP`
sleep preceding each poll); a poll whose extracted status equals the
configured failed code raises immediately after that single poll; a poll
whose status equals the configured success code returns normally; any other
string status keeps polling as still pending; and exhausting all attempts
without a terminal status raises the timeout-styled error. -/
theorem C4_check_request_succeeded_polling :
    MAX_RESPONSE_ATTEMPTS = 10 ∧
    (∀ (polls : Nat → JVal) (s fc p : String),
      (check_request_succeeded polls s fc p).pollsUsed ≤ MAX_RESPONSE_ATTEMPTS) ∧
    (∀ (polls : Nat → JVal) (s fc p : String),
      get_attr (polls 0) p = JVal.str fc →
      check_request_succeeded polls s fc p = PollResult.failedError (JVal.str fc) 1) ∧
    (∀ (polls : Nat → JVal) (s fc p : String),
      s ≠ fc → get_attr (polls 0) p = JVal.str s →
      check_request_succeeded polls s fc p = PollResult.success 1) ∧
    (∀ (polls : Nat → JVal) (s fc p : String) (fuel used : Nat),
      get_attr (polls used) p ≠ JVal.null →
      get_attr (polls used) p ≠ JVal.str fc →
      get_attr (polls used) p ≠ JVal.str s →
      check_request_loop polls s fc p (fuel + 1) used =
        check_request_loop polls s fc p fuel (used + 1)) ∧
    (∀ (polls : Nat → JVal) (s fc p : String),
      (∀ i, i < MAX_RESPONSE_ATTEMPTS →
        get_attr (polls i) p ≠ JVal.null ∧ get_attr (polls i) p ≠ JVal.str fc ∧
        get_attr (polls i) p ≠ JVal.str s) →
      check_request_succeeded polls s fc p =
        PollResult.timedOutError MAX_RESPONSE_ATTEMPTS) := by
  refine ⟨rfl, ?_, ?_, ?_, ?_, ?_⟩
  · intro polls s fc p
    exact check_request_loop_pollsUsed_le polls s fc p MAX_RESPONSE_ATTEMPTS 0
  · intro polls s fc p h
    rw [check_request_succeeded]
    show check_request_loop polls s fc p (9 + 1) 0 = _
    rw [check_request_loop, if_pos (Or.inr h)]
    rw [h]
  · intro polls s fc p hsf h
    have hne : ¬(get_attr (polls 0) p = JVal.null ∨ get_attr (polls 0) p = JVal.str fc) := by
      rw [h]
      rintro (hc | hc)
      · exact absurd hc (by simp)
      · exact hsf (by injection hc)
    rw [check_request_succeeded]
    show check_request_loop polls s fc p (9 + 1) 0 = _
    rw [check_request_loop, if_neg hne, if_pos h]
  · intro polls s fc p fuel used h1 h2 h3
    have hne : ¬(get_attr (polls used) p = JVal.null ∨
        get_attr (polls used) p = JVal.str fc) := by
      push_neg
      exact ⟨h1, h2⟩
    rw [check_request_loop, if_neg hne, if_neg h3]
  · intro polls s fc p h
    have := check_request_loop_all_pending polls s fc p MAX_RESPONSE_ATTEMPTS 0
      (fun i hi1 hi2 => h i (by omega))
    rw [check_request_succeeded, this, Nat.zero_add]

/-- Witness for C4 at concrete polls: a first poll answering the failed code
raises after one poll; a first poll answering the success code returns after
one poll; an always-pending poll sequence times out after all 10 polls. -/
theorem C4_check_request_succeeded_polling_witness :
    check_request_succeeded
      (fun _ => JVal.objCons "action" (JVal.objCons "actionState" (JVal.str "failed") JVal.objNil) JVal.objNil)
      "succeeded" "failed" "action.actionState" =
      PollResult.failedError (JVal.str "failed") 1 ∧
    check_request_succeeded
      (fun _ => JVal.objCons "action" (JVal.objCons "actionState" (JVal.str "succeeded") JVal.objNil) JVal.objNil)
      "succeeded" "failed" "action.actionState" = PollResult.success 1 ∧
    check_request_succeeded
      (fun _ => JVal.objCons "action" (JVal.objCons "actionState" (JVal.str "queued") JVal.objNil) JVal.objNil)
      "succeeded" "failed" "action.actionState" = PollResult.timedOutError 10 :=
  ⟨C4_check_request_succeeded_polling.2.2.1
      (fun _ => JVal.objCons "action" (JVal.objCons "actionState" (JVal.str "failed") JVal.objNil) JVal.objNil)
      "succeeded" "failed" "action.actionState" (by decide),
   C4_check_request_succeeded_polling.2.2.2.1
      (fun _ => JVal.objCons "action" (JVal.objCons "actionState" (JVal.str "succeeded") JVal.objNil) JVal.objNil)
      "succeeded" "failed" "action.actionState" (by decide) (by decide),
   C4_check_request_succeeded_polling.2.2.2.2.2
      (fun _ => JVal.objCons "action" (JVal.objCons "actionState" (JVal.str "queued") JVal.objNil) JVal.objNil)
      "succeeded" "failed" "action.actionState"
      (fun _ _ => (by decide :
        get_attr (JVal.objCons "action"
            (JVal.objCons "actionState" (JVal.str "queued") JVal.objNil) JVal.objNil)
          "action.actionState" ≠ JVal.null ∧
        get_attr (JVal.objCons "action"
            (JVal.objCons "actionState" (JVal.str "queued") JVal.objNil) JVal.objNil)
          "action.actionState" ≠ JVal.str "failed" ∧
        get_attr (JVal.objCons "action"
            (JVal.objCons "actionState" (JVal.str "queued") JVal.objNil) JVal.objNil)
          "action.actionState" ≠ JVal.str "succeeded"))⟩

/-- Claim C5: `refresh_token_if_necessary(elapsed)` on a session whose MBB
token carries `refresh_token` and a numeric `expires_in` is a no-network
no-op returning `false` while `elapsed + 5*60 < expires_in`; once due, it
performs exactly the three-request refresh sequence (MBB token, then bearer
token, then AZS service token, persisting a newly returned `refresh_token`)
and returns `true`; and a failure at any of the three requests is caught and
reported as a `false` return. -/
theorem C5_refresh_token_policy :
    (∀ (st : ServiceState) (elapsed : Int) (net : RefreshNet) (tok : JVal),
      st.mbboauthToken = some tok →
      jHasKey tok "refresh_token" = true → jHasKey tok "expires_in" = true →
      elapsed + 5 * 60 < jInt (jGet tok "expires_in") →
      refresh_token_if_necessary st elapsed net = (st, false, 0)) ∧
    (∀ (st : ServiceState) (elapsed : Int) (net : RefreshNet) (tok vw br az : JVal),
      st.mbboauthToken = some tok →
      jHasKey tok "refresh_token" = true → jHasKey tok "expires_in" = true →
      ¬(elapsed + 5 * 60 < jInt (jGet tok "expires_in")) →
      net.mbbRefreshRsp = Except.ok vw → net.bearerRsp = Except.ok br →
      net.azsRsp = Except.ok az →
      refresh_token_if_necessary st elapsed net =
        ({ st with
            vwToken := some vw
            mbboauthToken := some (if jHasKey vw "refresh_token" then
              jSetKey tok "refresh_token" (jGet vw "refresh_token") else tok)
            bearer_token_json := some br
            audiToken := some az }, true, 3)) ∧
    (∀ (st : ServiceState) (elapsed : Int) (net : RefreshNet) (tok : JVal) (e : String),
      st.mbboauthToken = some tok →
      jHasKey tok "refresh_token" = true → jHasKey tok "expires_in" = true →
      ¬(elapsed + 5 * 60 < jInt (jGet tok "expires_in")) →
      net.mbbRefreshRsp = Except.error e →
      refresh_token_if_necessary st elapsed net = (st, false, 1)) ∧
    (∀ (st : ServiceState) (elapsed : Int) (net : RefreshNet) (tok vw : JVal) (e : String),
      st.mbboauthToken = some tok →
      jHasKey tok "refresh_token" = true → jHasKey tok "expires_in" = true →
      ¬(elapsed + 5 * 60 < jInt (jGet tok "expires_in")) →
      net.mbbRefreshRsp = Except.ok vw → net.bearerRsp = Except.error e →
      (refresh_token_if_necessary st elapsed net).2 = (false, 2)) ∧
    (∀ (st : ServiceState) (elapsed : Int) (net : RefreshNet) (tok vw br : JVal) (e : String),
      st.mbboauthToken = some tok →
      jHasKey tok "refresh_token" = true → jHasKey tok "expires_in" = true →
      ¬(elapsed + 5 * 60 < jInt (jGet tok "expires_in")) →
      net.mbbRefreshRsp = Except.ok vw → net.bearerRsp = Except.ok br →
      net.azsRsp = Except.error e →
      (refresh_token_if_necessary st elapsed net).2 = (false, 3)) := by
  refine ⟨?_, ?_, ?_, ?_, ?_⟩
  · intro st elapsed net tok hm hrt hei hdue
    simp only [refresh_token_if_necessary, hm, hrt, hei, Bool.not_true, Bool.false_eq_true,
      if_false, if_pos hdue]
  · intro st elapsed net tok vw br az hm hrt hei hdue hmbb hbr haz
    obtain ⟨mbb, vwt, btj, adt, xc, mbburl, tep, azs0, cid⟩ := st
    replace hm : mbb = some tok := hm
    subst hm
    simp only [refresh_token_if_necessary, hrt, hei, Bool.not_true, Bool.false_eq_true,
      if_false]
    rw [if_neg hdue]
    by_cases hv : jHasKey vw "refresh_token" <;> simp [hmbb, hbr, haz, hv]
  · intro st elapsed net tok e hm hrt hei hdue hmbb
    obtain ⟨mbb, vwt, btj, adt, xc, mbburl, tep, azs0, cid⟩ := st
    replace hm : mbb = some tok := hm
    subst hm
    simp only [refresh_token_if_necessary, hrt, hei, Bool.not_true, Bool.false_eq_true,
      if_false]
    rw [if_neg hdue]
    simp [hmbb]
  · intro st elapsed net tok vw e hm hrt hei hdue hmbb hbr
    obtain ⟨mbb, vwt, btj, adt, xc, mbburl, tep, azs0, cid⟩ := st
    replace hm : mbb = some tok := hm
    subst hm
    simp only [refresh_token_if_necessary, hrt, hei, Bool.not_true, Bool.false_eq_true,
      if_false]
    rw [if_neg hdue]
    by_cases hv : jHasKey vw "refresh_token" <;> simp [hmbb, hbr, hv]
  · intro st elapsed net tok vw br e hm hrt hei hdue hmbb hbr haz
    obtain ⟨mbb, vwt, btj, adt, xc, mbburl, tep, azs0, cid⟩ := st
    replace hm : mbb = some tok := hm
    subst hm
    simp only [refresh_token_if_necessary, hrt, hei, Bool.not_true, Bool.false_eq_true,
      if_false]
    rw [if_neg hdue]
    by_cases hv : jHasKey vw "refresh_token" <;> simp [hmbb, hbr, haz, hv]

/-- Witness for C5: on the sample session (expires_in 3600), elapsed 0 is a
no-op returning false, and elapsed 3400 (due, since 3400 + 300 ≥ 3600)
performs the three-request refresh and returns true. -/
theorem C5_refresh_token_policy_witness :
    refresh_token_if_necessary sampleState 0 sampleNet = (sampleState, false, 0) ∧
    refresh_token_if_necessary sampleState 3400 sampleNet =
      ({ sampleState with
          vwToken := some sampleVwRsp
          mbboauthToken := some (if jHasKey sampleVwRsp "refresh_token" then
            jSetKey sampleMbbToken "refresh_token" (jGet sampleVwRsp "refresh_token")
            else sampleMbbToken)
          bearer_token_json := some sampleBearerRsp
          audiToken := some sampleAzsRsp }, true, 3) :=
  ⟨C5_refresh_token_policy.1 sampleState 0 sampleNet sampleMbbToken rfl (by decide)
      (by decide) (by decide),
   C5_refresh_token_policy.2.1 sampleState 3400 sampleNet sampleMbbToken sampleVwRsp
      sampleBearerRsp sampleAzsRsp rfl (by decide) (by decide) (by decide) rfl rfl rfl⟩

/-- Claim C10: calling `refresh_token_if_necessary` before any successful
login is a safe no-op — whenever the stored MBB token is absent, or lacks
the `refresh_token` key, or lacks the `expires_in` key, the function returns
`false` immediately, performs no network request, and leaves the whole
session state unchanged. -/
theorem C10_refresh_noop_before_login :
    (∀ (st : ServiceState) (elapsed : Int) (net : RefreshNet),
      st.mbboauthToken = none →
      refresh_token_if_necessary st elapsed net = (st, false, 0)) ∧
    (∀ (st : ServiceState) (elapsed : Int) (net : RefreshNet) (tok : JVal),
      st.mbboauthToken = some tok → jHasKey tok "refresh_token" = false →
      refresh_token_if_necessary st elapsed net = (st, false, 0)) ∧
    (∀ (st : ServiceState) (elapsed : Int) (net : RefreshNet) (tok : JVal),
      st.mbboauthToken = some tok → jHasKey tok "expires_in" = false →
      refresh_token_if_necessary st elapsed net = (st, false, 0)) := by
  refine ⟨?_, ?_, ?_⟩
  · intro st elapsed net hm
    simp [refresh_token_if_necessary, hm]
  · intro st elapsed net tok hm hrt
    simp [refresh_token_if_necessary, hm, hrt]
  · intro st elapsed net tok hm hei
    by_cases hrt : jHasKey tok "refresh_token" <;>
      simp [refresh_token_if_necessary, hm, hrt, hei]

/-- Witness for C10 at the three concrete degenerate sessions. -/
theorem C10_refresh_noop_before_login_witness :
    refresh_token_if_necessary emptyState 99999 sampleNet = (emptyState, false, 0) ∧
    refresh_token_if_necessary noRefreshTokenState 99999 sampleNet =
      (noRefreshTokenState, false, 0) ∧
    refresh_token_if_necessary noExpiresInState 99999 sampleNet =
      (noExpiresInState, false, 0) :=
  ⟨C10_refresh_noop_before_login.1 emptyState 99999 sampleNet rfl,
   C10_refresh_noop_before_login.2.1 noRefreshTokenState 99999 sampleNet
      (JVal.mkObj [("expires_in", JVal.num 3600)]) rfl (by decide),
   C10_refresh_noop_before_login.2.2 noExpiresInState 99999 sampleNet
      (JVal.mkObj [("refresh_token", JVal.str "RT0")]) rfl (by decide)⟩

theorem tripLoop_cons (cur t : TripEntry) (rest : List TripEntry) :
    tripLoop cur (t :: rest) =
      if cur.startMileage - t.startMileage > 2 then (cur, some t)
      else tripLoop { cur with tripID := t.tripID, startMileage := t.startMileage } rest :=
  rfl

theorem tripLoop_eq_signed :
    ∀ (l : List TripEntry) (cur : TripEntry),
      tripLoop cur l = tripScanSpecSigned cur l := by
  intro l
  induction l with
  | nil => intro cur; rfl
  | cons t rest ih =>
    intro cur
    rw [tripLoop, tripScanSpecSigned]
    split
    · rfl
    · exact ih _

/-- Claim C6 counterexample: on the two-trip list where the later (lower-
mileage) trip has a LARGER `startMileage` (60 vs 50), the absolute
difference is 10 > 2 so the claim as stated predicts that trip as "reset";
the code's signed comparison `50 - 60 > 2` is false, so the code merges it
into "current" and returns no reset trip. -/
theorem C6_counterexample :
    get_tripdata [⟨1, 50, 100⟩, ⟨2, 60, 90⟩] =
      some (⟨2, 60, 100⟩, none) ∧
    get_tripdataSpecAbs [⟨1, 50, 100⟩, ⟨2, 60, 90⟩] =
      some (⟨1, 50, 100⟩, some ⟨2, 60, 90⟩) ∧
    get_tripdata [⟨1, 50, 100⟩, ⟨2, 60, 90⟩] ≠
      get_tripdataSpecAbs [⟨1, 50, 100⟩, ⟨2, 60, 90⟩] := by
  decide

/-- Claim C6 as amended: `get_tripdata` sorts the trips descending by
`overallMileage` (a permutation of the input, sorted under `tripGE`), takes
the head as the current trip, and the reset trip is the first subsequent
entry whose `startMileage` is below the running current trip's
`startMileage` by strictly MORE than 2 (signed difference, not absolute);
every entry scanned before it overwrites the running current's `tripID` and
`startMileage`. -/
theorem C6_amended_tripdata :
    (∀ trips : List TripEntry, (sortDescByOverall trips).Sorted tripGE) ∧
    (∀ trips : List TripEntry, (sortDescByOverall trips).Perm trips) ∧
    (∀ trips : List TripEntry, get_tripdata trips = get_tripdataSpecSigned trips) := by
  refine ⟨fun trips => List.sorted_insertionSort tripGE trips,
    fun trips => List.perm_insertionSort tripGE trips, ?_⟩
  intro trips
  cases hs : sortDescByOverall trips with
  | nil => simp [get_tripdata, get_tripdataSpecSigned, hs]
  | cons c rest =>
    simp only [get_tripdata, get_tripdataSpecSigned, hs]
    rw [tripLoop_cons, if_neg (by omega)]
    have hc : ({ c with tripID := c.tripID, startMileage := c.startMileage } : TripEntry) = c := by
      cases c; rfl
    rw [hc, tripLoop_eq_signed]

/-- Claim C7 counterexample: on a logged-in session, a failing underlying
lock call is caught and logged and `set_vehicle_lock` falls off the end of
the function — the caller receives Python `None`, not a failure result or an
exception. -/
theorem C7_counterexample :
    set_vehicle_lock true (Except.error "ClientResponseError 500") =
      (ActionResult.noneResult, false) := rfl

/-- Claim C7 as amended: on a logged-in session each action wrapper returns
`True` (after notifying observers) when the underlying action succeeds; when
it fails, `set_vehicle_lock`, `set_vehicle_climatisation`,
`set_battery_charger`, `set_vehicle_window_heating` and
`set_vehicle_pre_heater` catch and log the error and return `None` (no
failure result, no exception), while `start_climate_control` returns
`False`; with no login the wrappers return `False` without a network
call. -/
theorem C7_amended_action_results :
    (∀ e : String, set_vehicle_lock true (Except.error e) =
      (ActionResult.noneResult, false)) ∧
    (∀ e : String, set_vehicle_climatisation true (Except.error e) =
      (ActionResult.noneResult, false)) ∧
    (∀ e : String, set_battery_charger true (Except.error e) =
      (ActionResult.noneResult, false)) ∧
    (∀ e : String, set_vehicle_window_heating true (Except.error e) =
      (ActionResult.noneResult, false)) ∧
    (∀ e : String, set_vehicle_pre_heater true (Except.error e) =
      (ActionResult.noneResult, false)) ∧
    (∀ e : String, start_climate_control true (Except.error e) =
      (ActionResult.someFalse, false)) ∧
    set_vehicle_lock true (Except.ok ()) = (ActionResult.someTrue, true) ∧
    set_vehicle_climatisation true (Except.ok ()) = (ActionResult.someTrue, true) ∧
    set_battery_charger true (Except.ok ()) = (ActionResult.someTrue, true) ∧
    set_vehicle_window_heating true (Except.ok ()) = (ActionResult.someTrue, true) ∧
    set_vehicle_pre_heater true (Except.ok ()) = (ActionResult.someTrue, true) ∧
    start_climate_control true (Except.ok ()) = (ActionResult.someTrue, true) ∧
    (∀ out : Except String Unit, set_vehicle_lock false out =
      (ActionResult.someFalse, false)) := by
  exact ⟨fun e => rfl, fun e => rfl, fun e => rfl, fun e => rfl, fun e => rfl,
    fun e => rfl, rfl, rfl, rfl, rfl, rfl, rfl, fun out => rfl⟩

theorem account_vehicle_loop_processed :
    ∀ (l : List (Veh × VehCycle)) (b : Bool),
      (account_vehicle_loop b l).2.2 = l.length := by
  intro l
  induction l with
  | nil => intro b; rfl
  | cons hd tl ih =>
    intro b
    obtain ⟨v, outs⟩ := hd
    simp [account_vehicle_loop, ih]

theorem account_vehicle_loop_vehicles :
    ∀ (l : List (Veh × VehCycle)) (b : Bool),
      (account_vehicle_loop b l).1 =
        l.map (fun p => (vehicle_update p.1 p.2).1) := by
  intro l
  induction l with
  | nil => intro b; rfl
  | cons hd tl ih =>
    intro b
    obtain ⟨v, outs⟩ := hd
    simp [account_vehicle_loop, ih]

theorem account_vehicle_loop_loggedin :
    ∀ (l : List (Veh × VehCycle)) (b : Bool),
      ((account_vehicle_loop b l).2.1 = true ↔
        (b = true ∧ ∀ p ∈ l, (vehicle_update p.1 p.2).2 ≠ VehUpdateResult.retFalse)) := by
  intro l
  induction l with
  | nil => intro b; simp [account_vehicle_loop]
  | cons hd tl ih =>
    intro b
    obtain ⟨v, outs⟩ := hd
    by_cases hr : (vehicle_update v outs).2 = VehUpdateResult.retFalse
    · simp only [account_vehicle_loop, hr, if_pos rfl, ih]
      constructor
      · rintro ⟨hfalse, -⟩; exact absurd hfalse (by simp)
      · rintro ⟨-, hall⟩
        exact absurd hr (hall (v, outs) (by simp))
    · simp only [account_vehicle_loop, if_neg hr, ih]
      constructor
      · rintro ⟨hb, hall⟩
        refine ⟨hb, ?_⟩
        rintro p hp
        rcases List.mem_cons.mp hp with rfl | hp
        · exact hr
        · exact hall p hp
      · rintro ⟨hb, hall⟩
        exact ⟨hb, fun p hp => hall p (List.mem_cons_of_mem _ hp)⟩

/-- Claim C8 counterexample: one vehicle whose status-report fetch fails
with a generic (non-403/404, non-timeout) error — the per-vehicle update
returns `False` (`no_error` cleared), the loop completes, the listeners run
and `update` returns `True`, yet `_loggedin` is forced to `False` by
`add_or_update_vehicle` even though no I/O-class exception occurred at the
outer update level. -/
theorem C8_counterexample :
    (account_update true [(initVehicle "WAUZZZ4G7EN000001",
        fun _ _ => FetchOutcome.otherError "Internal Server Error")] false).returned
      = true ∧
    (account_update true [(initVehicle "WAUZZZ4G7EN000001",
        fun _ _ => FetchOutcome.otherError "Internal Server Error")] false).listenersFired
      = true ∧
    (account_update true [(initVehicle "WAUZZZ4G7EN000001",
        fun _ _ => FetchOutcome.otherError "Internal Server Error")] false).processed
      = 1 ∧
    (account_update true [(initVehicle "WAUZZZ4G7EN000001",
        fun _ _ => FetchOutcome.otherError "Internal Server Error")] false).loggedin
      = false := by
  decide

/-- Claim C8 as amended: on a logged-in account, per-subsystem failures
never abort `update` — every vehicle is processed, the listeners fire and
`update` returns `True` whether or not vehicles failed; but in addition to
the support flags and `no_error`, a vehicle update returning `False` also
forces the account's `_loggedin` to `False` (triggering a re-login on the
next cycle); an `OSError` in the outer update (here: from a listener) aborts
with `_loggedin = False` and returns `False` after still processing every
vehicle. -/
theorem C8_amended_update_containment :
    (∀ (vehOuts : List (Veh × VehCycle)) (osErr : Bool),
      (account_update true vehOuts osErr).processed = vehOuts.length) ∧
    (∀ (vehOuts : List (Veh × VehCycle)) (osErr : Bool),
      (account_update true vehOuts osErr).vehicles =
        vehOuts.map (fun p => (vehicle_update p.1 p.2).1)) ∧
    (∀ vehOuts : List (Veh × VehCycle),
      (account_update true vehOuts false).returned = true ∧
      (account_update true vehOuts false).listenersFired = true) ∧
    (∀ vehOuts : List (Veh × VehCycle),
      (account_update true vehOuts true).returned = false ∧
      (account_update true vehOuts true).loggedin = false) ∧
    (∀ vehOuts : List (Veh × VehCycle),
      ((account_update true vehOuts false).loggedin = true ↔
        ∀ p ∈ vehOuts, (vehicle_update p.1 p.2).2 ≠ VehUpdateResult.retFalse)) := by
  refine ⟨?_, ?_, ?_, ?_, ?_⟩
  · intro vehOuts osErr
    cases osErr <;>
      simp [account_update, account_vehicle_loop_processed]
  · intro vehOuts osErr
    cases osErr <;>
      simp [account_update, account_vehicle_loop_vehicles]
  · intro vehOuts
    simp [account_update]
  · intro vehOuts
    simp [account_update]
  · intro vehOuts
    have := account_vehicle_loop_loggedin vehOuts true
    simp only [account_update, if_neg (by simp : ¬(true = false)), if_neg Bool.false_ne_true]
    simpa using this

/-- Witness for C8 (amended): the loggedin characterization at a concrete
one-vehicle account whose cycle succeeds with empty data. -/
theorem C8_amended_update_containment_witness :
    (account_update true [] false).loggedin = true ∧
    (account_update true [(initVehicle "WAUZZZ4G7EN000001",
        fun _ _ => FetchOutcome.okJson JVal.null)] false).processed = 1 :=
  ⟨(C8_amended_update_containment.2.2.2.2 []).mpr (by intro p hp; cases hp),
   C8_amended_update_containment.1 [(initVehicle "WAUZZZ4G7EN000001",
      fun _ _ => FetchOutcome.okJson JVal.null)] false⟩

set_option maxRecDepth 100000 in
/-- Claim C9: the security-pin hash is deterministic and equals the
uppercase hexadecimal SHA-512 digest of the decoded PIN bytes followed by
the decoded challenge bytes; for the fixed PIN `"3842"` and a fixed
32-byte challenge it reproduces the known expected digest (computed
independently with `hashlib.sha512`). -/
theorem C9_security_pin_hash :
    (∀ (spin challenge : String) (pin bc : List Nat),
      to_byte_array spin = some pin → to_byte_array challenge = some bc →
      generate_security_pin_hash spin challenge =
        some (upperString (sha512Hex (pin ++ bc)))) ∧
    generate_security_pin_hash "3842"
        "1b4e28ba2fa1d3a1586d7f4e8f2a9c33aabbccddeeff00112233445566778899" =
      some "C689E1D4B1D646F4E49941C07C312C52E017DA5FE8F1ECE9DC000BB795425D59194FAADF2B4CC52ADB7FA22ABCEF95B6CDA72EEA87CE3C9DC09052C52944DC0D" := by
  constructor
  · intro spin challenge pin bc hp hc
    simp [generate_security_pin_hash, hp, hc]
  · decide

/-- Witness for C9: the structural equation applied at the concrete PIN and
challenge, whose byte decodings are evaluated by `decide`. -/
theorem C9_security_pin_hash_witness :
    generate_security_pin_hash "3842"
        "1b4e28ba2fa1d3a1586d7f4e8f2a9c33aabbccddeeff00112233445566778899" =
      some (upperString (sha512Hex ([0x38, 0x42] ++
        [0x1b, 0x4e, 0x28, 0xba, 0x2f, 0xa1, 0xd3, 0xa1, 0x58, 0x6d, 0x7f, 0x4e,
         0x8f, 0x2a, 0x9c, 0x33, 0xaa, 0xbb, 0xcc, 0xdd, 0xee, 0xff, 0x00, 0x11,
         0x22, 0x33, 0x44, 0x55, 0x66, 0x77, 0x88, 0x99]))) :=
  C9_security_pin_hash.1 "3842"
    "1b4e28ba2fa1d3a1586d7f4e8f2a9c33aabbccddeeff00112233445566778899"
    [0x38, 0x42]
    [0x1b, 0x4e, 0x28, 0xba, 0x2f, 0xa1, 0xd3, 0xa1, 0x58, 0x6d, 0x7f, 0x4e,
     0x8f, 0x2a, 0x9c, 0x33, 0xaa, 0xbb, 0xcc, 0xdd, 0xee, 0xff, 0x00, 0x11,
     0x22, 0x33, 0x44, 0x55, 0x66, 0x77, 0x88, 0x99] (by decide) (by decide)

end AudiConnect

